import Mathlib

/-
Verification of the configuration script in configure_scanner.py.

The script is a linear orchestration of subprocess calls driven by
environment variables.  We embed its control logic shallowly: the
environment is a record of optional strings, subprocess outcomes are
explicit parameters (exit codes, captured output, match indices of the
interactive dialogue), and each Python function becomes a pure Lean
function over those parameters.  Python truthiness of optional strings
and the unbound-name error in the retry loop are modelled explicitly.
-/

namespace ConfigureScanner

/-- Python truthiness of an `os.getenv` result: `None` and the empty
string are falsy, every non-empty string is truthy. -/
def truthy : Option String → Bool
  | none => false
  | some s => !(s == "")

/-- Python `str()` applied to an optional string: `str(None) = "None"`. -/
def str_of : Option String → String
  | none => "None"
  | some s => s

/-- The environment-derived module-level configuration (lines 27-50 of
configure_scanner.py).  Fields follow the source order; each is the raw
`os.getenv` result (`Option String`) except the readiness timeout, which
the source converts with `int(...)`, and fields whose defaults make them
always strings. -/
structure Config where
  global_db_timeout : Nat
  activation_code : Option String
  name : String
  username : Option String
  password : Option String
  linking_key : Option String
  manager_host : String
  manager_port : String
  retry_on_fail : Option String
  proxy : Option String
  proxy_port : Option String
  proxy_user : Option String
  proxy_pass : Option String

/-- Embedding of the guard at line 278, `if RETRY_ON_FAIL:`, applied to
the raw value of line 43, `RETRY_ON_FAIL = os.getenv("RETRY_ON_FAIL", False)`:
the retry loop is entered exactly when the variable is truthy. -/
def retry_enabled (v : Option String) : Bool := truthy v

/-- Outcome of the guard section of add_user (lines 110-126): the
function can return False before spawning, return True before spawning
(skip), or go on to spawn the interactive adduser process. -/
inductive AddUserOutcome where
  | failed
  | skipped
  | dialogue
  deriving DecidableEq

/-- Embedding of the three guard conditionals of add_user
(lines 113-123), in source order.  `USERNAME is None` is a None test,
while `ACTIVATION_CODE or LINKING_KEY` is a truthiness test. -/
def add_user_guard (cfg : Config) : AddUserOutcome :=
  if (truthy cfg.activation_code || truthy cfg.linking_key)
      && cfg.username.isNone && cfg.password.isNone then
    AddUserOutcome.failed
  else if (truthy cfg.activation_code || truthy cfg.linking_key)
      && cfg.username.isSome && cfg.password.isNone then
    AddUserOutcome.failed
  else if cfg.username.isNone || cfg.password.isNone then
    AddUserOutcome.skipped
  else
    AddUserOutcome.dialogue

/-- The boolean add_user returns on every non-raising path: False from
the failed guards, True from the skip guard, and True from every
completed dialogue branch (lines 135, 160, 165). -/
def add_user_returns (cfg : Config) : Bool :=
  match add_user_guard cfg with
  | AddUserOutcome.failed => false
  | AddUserOutcome.skipped => true
  | AddUserOutcome.dialogue => true

/-- One observable interaction with the spawned adduser process: a
pexpect `expect` call (pattern list plus the index that matched), a
`sendline`, or the `kill(0)` in the user-exists branch. -/
inductive Event where
  | expect (patterns : List String) (matched : Nat)
  | send (line : String)
  | kill
  deriving DecidableEq

/-- Trace of the interactive dialogue of add_user (lines 126-160) as a
function of the two branch points the child controls: whether the first
expect matches the license-limit message (index 1) and whether the
second expect matches "already exists" (index 1).  All other expects
have a single pattern. -/
def adduser_dialogue (username password : String)
    (licenseLimit userExists : Bool) : List Event :=
  Event.expect ["Login:",
      "Your license does not allow you to create more than one user"]
      (if licenseLimit then 1 else 0) ::
  if licenseLimit then []
  else
    Event.send username ::
    Event.expect ["Login password:", "already exists"]
        (if userExists then 1 else 0) ::
    if userExists then [Event.kill]
    else
      [Event.send password,
       Event.expect ["Login password .*"] 0,
       Event.send password,
       Event.expect ["Do you want this user to be .*"] 0,
       Event.send "y",
       Event.expect ["the user can have an empty rules set"] 0,
       Event.send "",
       Event.expect ["Is that ok?"] 0,
       Event.send "y\n",
       Event.expect ["User added"] 0]

/-- A send event is justified by the event right before it: it must be
an expect whose matched index points into its own pattern list. -/
def sendOk : Event → Option Event → Bool
  | Event.send _, some (Event.expect pats idx) => decide (idx < pats.length)
  | Event.send _, _ => false
  | _, _ => true

/-- Every send in the trace is immediately preceded by a successful
expect; `prev` carries the previous event. -/
def sendGuarded : Option Event → List Event → Bool
  | _, [] => true
  | prev, e :: rest => sendOk e prev && sendGuarded (some e) rest

/-- The Python 2.7+ path captures the command output; failure is either
a CalledProcessError (non-zero exit) or captured output.  The legacy
path only sees an exit code. -/
inductive LinkCall where
  | exitCode (n : Nat)
  | output (s : String)
  | calledProcessError
  deriving DecidableEq

/-- A Python value returned by managed_link: a boolean or (on the
modern success path) the captured output string. -/
inductive PyValue where
  | pyBool (b : Bool)
  | pyStr (s : String)
  deriving DecidableEq

/-- Python truthiness of a managed_link return value. -/
def pyTruthy : PyValue → Bool
  | PyValue.pyBool b => b
  | PyValue.pyStr s => !(s == "")

/-- The needle list is an exact lead segment of the haystack list. -/
def leadMatch : List Char → List Char → Bool
  | [], _ => true
  | _ :: _, [] => false
  | a :: as, b :: bs => a == b && leadMatch as bs

/-- The needle occurs contiguously somewhere in the haystack. -/
def containsSeq (needle : List Char) : List Char → Bool
  | [] => leadMatch needle []
  | b :: bs => leadMatch needle (b :: bs) || containsSeq needle bs

/-- Embedding of the Python substring test `"Failed" in linked.decode("utf-8")`
at line 254. -/
def containsFailed (s : String) : Bool :=
  containsSeq "Failed".toList s.toList

/-- Path of the external tool invoked throughout the script. -/
def nessuscli : String := "/opt/nessus/sbin/nessuscli"

/-- The argument vector managed_link builds (lines 198-246), by version
branch and proxy presence.  Note the Python 2.7+ non-proxy branch
(line 246) passes `MANAGER_PORT`, not the `remote_port` parameter. -/
def managed_link_cmd (cfg : Config) (remote_port : String)
    (legacy : Bool) : List String :=
  if legacy then
    if truthy cfg.proxy then
      [nessuscli, "managed", "link",
       "--key=" ++ str_of cfg.linking_key,
       "--name=" ++ cfg.name,
       "--host=" ++ cfg.manager_host,
       "--port=" ++ remote_port,
       "--proxy-host=" ++ str_of cfg.proxy,
       "--proxy-port=" ++ str_of cfg.proxy_port,
       "--proxy-username=" ++ str_of cfg.proxy_user,
       "--proxy-password=" ++ str_of cfg.proxy_pass]
    else
      [nessuscli, "managed", "link",
       "--key=" ++ str_of cfg.linking_key,
       "--name=" ++ cfg.name,
       "--host=" ++ cfg.manager_host,
       "--port=" ++ remote_port]
  else
    if truthy cfg.proxy then
      [nessuscli, "managed", "link",
       "--key=" ++ str_of cfg.linking_key,
       "--name=" ++ cfg.name,
       "--host=" ++ cfg.manager_host,
       "--port=" ++ remote_port,
       "--proxy-host=" ++ str_of cfg.proxy,
       "--proxy-port=" ++ str_of cfg.proxy_port,
       "--proxy-username=" ++ str_of cfg.proxy_user,
       "--proxy-password=" ++ str_of cfg.proxy_pass]
    else
      [nessuscli, "managed", "link",
       "--key=" ++ str_of cfg.linking_key,
       "--name=" ++ cfg.name,
       "--host=" ++ cfg.manager_host,
       "--port=" ++ cfg.manager_port]

/-- The value managed_link returns (lines 222-262) from the outcome of
the one subprocess invocation.  Legacy branch: True on exit 0, False
otherwise (lines 222-227).  Modern branch: False on CalledProcessError
(lines 248-251); on captured output, False when the output is falsy or
contains "Failed", and otherwise `return linked` hands back the raw
output (line 260), not the boolean True. -/
def managed_link_result (legacy : Bool) (call : LinkCall) : PyValue :=
  match legacy, call with
  | true, LinkCall.exitCode n =>
      if n == 0 then PyValue.pyBool true else PyValue.pyBool false
  | true, _ => PyValue.pyBool false
  | false, LinkCall.calledProcessError => PyValue.pyBool false
  | false, LinkCall.output s =>
      if !(s == "") then
        if containsFailed s then PyValue.pyBool false else PyValue.pyStr s
      else PyValue.pyBool false
  | false, LinkCall.exitCode _ => PyValue.pyBool false

/-- How one run of configure_managed_scanner ends: a normal boolean
return, or an uncaught NameError. -/
inductive RunOutcome where
  | ok (b : Bool)
  | nameError
  deriving DecidableEq

/-- Embedding of configure_managed_scanner (lines 265-289); the second
component counts executed `time.sleep(int(RETRY_ON_FAIL_SLEEP))` calls.
The first attempt is `managed_link(MANAGER_PORT)`; `attempts 0` is the
truthiness of its result.  If it fails and retry is enabled, the loop
body (lines 279-282) prints, sleeps once, and then evaluates
`remote_port` - a name bound nowhere in the function or at module
level - so Python raises NameError before any second link attempt; the
rest of `attempts` is unreachable.  If retry is disabled the failure is
returned. -/
def configure_managed_scanner (retry : Bool) (attempts : Nat → Bool) :
    RunOutcome × Nat :=
  if attempts 0 then (RunOutcome.ok true, 0)
  else if retry then (RunOutcome.nameError, 1)
  else (RunOutcome.ok false, 0)

/-- One iteration structure of wait_for_global_db (lines 301-309):
given the marker presence at each poll index, a start index and fuel,
returns (result, polls performed, sleeps performed).  The source checks
the file, returns True on presence, otherwise sleeps one second and
continues; after `timeout` failed polls it returns False. -/
def wait_loop (present : Nat → Bool) : Nat → Nat → Bool × Nat × Nat
  | _, 0 => (false, 0, 0)
  | i, fuel + 1 =>
      if present i then (true, 1, 0)
      else
        match wait_loop present (i + 1) fuel with
        | (r, polls, sleeps) => (r, polls + 1, sleeps + 1)

/-- Embedding of wait_for_global_db with `timeout = int(GLOBAL_DB_TIMEOUT)`. -/
def wait_for_global_db (present : Nat → Bool) (timeout : Nat) :
    Bool × Nat × Nat :=
  wait_loop present 0 timeout

/-- Embedding of activate (lines 76-107) from the exit codes of the
register and service-start commands: non-zero register exit fails, then
non-zero start exit fails, else success.  The initial `supervisorctl stop`
result is ignored by the source. -/
def activate (registerExit startExit : Nat) : Bool :=
  if !(registerExit == 0) then false
  else if !(startExit == 0) then false
  else true

/-- Exit status of one nessus_config call (lines 53-73): success exactly
on subprocess exit code 0. -/
def nessus_config_result (exitCode : Nat) : Bool := exitCode == 0

/-- Embedding of cli_configure (lines 168-195): it runs a series of
nessus_config commands and a service restart, logs their failures, and
returns True unconditionally (line 195) - the results are ignored. -/
def cli_configure (_settingExits : List Nat) (_restartExit : Nat) : Bool :=
  true

/-- How the whole program ends: a sys.exit code, or an uncaught
exception propagating out of the retry loop. -/
inductive ExitResult where
  | code (n : Nat)
  | uncaught
  deriving DecidableEq

/-- Embedding of the `__main__` block (lines 312-355).  World inputs:
`present` is the readiness marker at each poll, `settingExits` and
`restartExit` feed cli_configure, `registerExit`/`startExit` feed
activate, and `attempts` gives the truthiness of each managed_link
result.  The activation branch exits 0 whether or not activate
succeeded, because the `sys.exit(0)` at line 343 sits outside the
`if not activated:` block. -/
def main_run (cfg : Config) (present : Nat → Bool) (settingExits : List Nat)
    (restartExit registerExit startExit : Nat) (attempts : Nat → Bool) :
    ExitResult :=
  if !(wait_for_global_db present cfg.global_db_timeout).1 then
    ExitResult.code 3
  else if !(add_user_returns cfg) then
    ExitResult.code 3
  else if !(cli_configure settingExits restartExit) then
    ExitResult.code 3
  else if !(truthy cfg.activation_code) && !(truthy cfg.linking_key) then
    ExitResult.code 0
  else if truthy cfg.activation_code then
    match activate registerExit startExit with
    | true => ExitResult.code 0
    | false => ExitResult.code 0
  else if truthy cfg.linking_key then
    match (configure_managed_scanner (retry_enabled cfg.retry_on_fail) attempts).1 with
    | RunOutcome.ok true => ExitResult.code 0
    | RunOutcome.ok false => ExitResult.code 3
    | RunOutcome.nameError => ExitResult.uncaught
  else
    ExitResult.code 0

/-- A configuration with an activation code, no username, a password. -/
def cfgMismatch : Config :=
  ⟨1, some "CODE", "scanner", none, some "pw", none,
   "cloud.tenable.com", "443", none, none, none, none, none⟩

/-- A configuration with an activation code and neither credential. -/
def cfgBothAbsent : Config :=
  ⟨1, some "CODE", "scanner", none, none, none,
   "cloud.tenable.com", "443", none, none, none, none, none⟩

/-- A configuration with no activation code, linking key or credentials. -/
def cfgPlain : Config :=
  ⟨1, none, "scanner", none, none, none,
   "cloud.tenable.com", "443", none, none, none, none, none⟩

/-- A managed-scanner configuration: linking key, both credentials,
retry disabled. -/
def cfgLink : Config :=
  ⟨1, none, "scanner", some "admin", some "pw", some "KEY",
   "cloud.tenable.com", "443", none, none, none, none, none⟩

/-- An activation configuration with both credentials present. -/
def cfgActivate : Config :=
  ⟨1, some "CODE", "scanner", some "admin", some "pw", none,
   "cloud.tenable.com", "443", none, none, none, none, none⟩

/-- A linking configuration with no proxy, default manager port 443. -/
def cfgNoProxy : Config :=
  ⟨1, none, "scanner", none, none, some "KEY",
   "cloud.tenable.com", "443", none, none, none, none, none⟩

/-- A configuration whose readiness timeout is two polls. -/
def cfgTimeout : Config :=
  ⟨2, none, "scanner", none, none, none,
   "cloud.tenable.com", "443", none, none, none, none, none⟩

lemma sendGuarded_take (l : List Event) :
    ∀ (prev : Option Event) (n : Nat),
      sendGuarded prev l = true → sendGuarded prev (l.take n) = true := by
  induction l with
  | nil =>
      intro prev n _
      simp [List.take_nil, sendGuarded]
  | cons e rest ih =>
      intro prev n h
      cases n with
      | zero => simp [sendGuarded]
      | succ m =>
          rw [List.take_succ_cons]
          simp only [sendGuarded, Bool.and_eq_true] at h ⊢
          exact ⟨h.1, ih (some e) m h.2⟩

lemma wait_loop_never (present : Nat → Bool) (h : ∀ i, present i = false) :
    ∀ (t i : Nat), wait_loop present i t = (false, t, t) := by
  intro t
  induction t with
  | zero => intro i; rfl
  | succ m ih =>
      intro i
      simp [wait_loop, h i, ih (i + 1)]

/-- Claim C8: in every execution of the interactive add-user dialogue
(including any prefix of it, covering runs cut short by an expect
failure), a response is sent only immediately after an expect that
successfully matched one of its patterns. -/
theorem adduser_dialogue_sends_guarded (username password : String)
    (licenseLimit userExists : Bool) (n : Nat) :
    sendGuarded none
      ((adduser_dialogue username password licenseLimit userExists).take n)
      = true := by
  apply sendGuarded_take
  cases licenseLimit <;> cases userExists <;> rfl

theorem adduser_dialogue_sends_guarded_witness :
    sendGuarded none ((adduser_dialogue "admin" "pw" false false).take 20)
      = true :=
  adduser_dialogue_sends_guarded "admin" "pw" false false 20

/-- Claim C7: with a readiness marker that never appears, the wait
performs exactly `timeout` polls and `timeout` one-second sleeps,
returns failure, and the program exits with code 3. -/
theorem wait_timeout_fatal (cfg : Config) (present : Nat → Bool)
    (settingExits : List Nat) (restartExit registerExit startExit : Nat)
    (attempts : Nat → Bool) (h : ∀ i, present i = false) :
    wait_for_global_db present cfg.global_db_timeout
        = (false, cfg.global_db_timeout, cfg.global_db_timeout) ∧
    main_run cfg present settingExits restartExit registerExit startExit
        attempts = ExitResult.code 3 := by
  have hw : wait_for_global_db present cfg.global_db_timeout
      = (false, cfg.global_db_timeout, cfg.global_db_timeout) :=
    wait_loop_never present h cfg.global_db_timeout 0
  exact ⟨hw, by simp [main_run, hw]⟩

theorem wait_timeout_fatal_witness :
    wait_for_global_db (fun _ => false) 2 = (false, 2, 2) ∧
    main_run cfgTimeout (fun _ => false) [] 0 0 0 (fun _ => false)
      = ExitResult.code 3 :=
  wait_timeout_fatal cfgTimeout (fun _ => false) [] 0 0 0 (fun _ => false)
    (fun _ => rfl)

/-- Claim C10: the retry flag is enabled exactly when RETRY_ON_FAIL is
set to a non-empty string; "false" and "no" enable it, unset or empty
disable it. -/
theorem retry_flag_truthiness :
    (∀ v : Option String,
        retry_enabled v = true ↔ ∃ s, v = some s ∧ s ≠ "") ∧
    retry_enabled (some "false") = true ∧
    retry_enabled (some "no") = true ∧
    retry_enabled none = false ∧
    retry_enabled (some "") = false := by
  refine ⟨?_, by decide, by decide, by decide, by decide⟩
  intro v
  cases v with
  | none => simp [retry_enabled, truthy]
  | some s => simp [retry_enabled, truthy]

theorem retry_flag_truthiness_witness :
    retry_enabled (some "false") = true ∧ retry_enabled none = false :=
  ⟨retry_flag_truthiness.2.1, retry_flag_truthiness.2.2.2.1⟩

/-- Claim C1 (code defect): with retry enabled and an attempt sequence
that fails twice then succeeds on the third try, configure_managed_scanner
does not sleep twice and report success; it sleeps once and then hits
the unbound name remote_port, ending in a NameError. -/
theorem retry_loop_hits_unbound_name :
    configure_managed_scanner true (fun n => decide (2 ≤ n))
      = (RunOutcome.nameError, 1) := by
  rfl

/-- Claim C2 (code defect): on the Python 2.7+ non-proxy path the link
command carries the module default MANAGER_PORT (443), not the
caller-supplied port 8443. -/
theorem modern_link_ignores_caller_port :
    ("--port=443" ∈ managed_link_cmd cfgNoProxy "8443" false) ∧
    ("--port=8443" ∉ managed_link_cmd cfgNoProxy "8443" false) := by
  decide

/-- Claim C3 (counterexample): with an activation code present, the
username unset and the password set - exactly one credential set - the
run does not abort: add_user skips with success, no process is spawned,
and the whole run exits 0, not 3. -/
theorem add_user_mismatch_cex :
    cfgMismatch.username = none ∧ cfgMismatch.password = some "pw" ∧
    truthy cfgMismatch.activation_code = true ∧
    add_user_guard cfgMismatch = AddUserOutcome.skipped ∧
    add_user_returns cfgMismatch = true ∧
    main_run cfgMismatch (fun _ => true) [] 0 0 0 (fun _ => false)
      = ExitResult.code 0 := by
  decide

/-- Claim C3 (amended): the abort happens exactly when an activation
code or linking key is present and the password is unset (then add_user
fails without spawning and the run exits 3); when the password is set
but the username unset, or when neither an activation code nor a
linking key is present, add_user skips with success without spawning. -/
theorem add_user_credential_mismatch (cfg : Config) :
    ((truthy cfg.activation_code || truthy cfg.linking_key) = true →
      cfg.password = none →
      add_user_guard cfg = AddUserOutcome.failed) ∧
    ((truthy cfg.activation_code || truthy cfg.linking_key) = true →
      cfg.password = none →
      ∀ (present : Nat → Bool) (settingExits : List Nat)
        (restartExit registerExit startExit : Nat) (attempts : Nat → Bool),
        (wait_for_global_db present cfg.global_db_timeout).1 = true →
        main_run cfg present settingExits restartExit registerExit startExit
          attempts = ExitResult.code 3) ∧
    (cfg.username = none → cfg.password.isSome = true →
      add_user_guard cfg = AddUserOutcome.skipped) ∧
    ((truthy cfg.activation_code || truthy cfg.linking_key) = false →
      (cfg.username = none ∨ cfg.password = none) →
      add_user_guard cfg = AddUserOutcome.skipped) := by
  refine ⟨?_, ?_, ?_, ?_⟩
  · intro hOr hp
    cases hu : cfg.username <;> simp [add_user_guard, hOr, hp, hu]
  · intro hOr hp present settingExits restartExit registerExit startExit
      attempts hgdb
    have hg : add_user_guard cfg = AddUserOutcome.failed := by
      cases hu : cfg.username <;> simp [add_user_guard, hOr, hp, hu]
    simp [main_run, hgdb, add_user_returns, hg]
  · intro hu hp
    cases hp2 : cfg.password with
    | none => rw [hp2] at hp; simp at hp
    | some p => simp [add_user_guard, hu, hp2]
  · intro hOr hmix
    rcases hmix with hu | hp
    · simp [add_user_guard, hOr, hu]
    · simp [add_user_guard, hOr, hp]

theorem add_user_credential_mismatch_witness :
    add_user_guard cfgBothAbsent = AddUserOutcome.failed ∧
    main_run cfgBothAbsent (fun _ => true) [] 0 0 0 (fun _ => false)
      = ExitResult.code 3 :=
  ⟨(add_user_credential_mismatch cfgBothAbsent).1 (by decide) rfl,
   (add_user_credential_mismatch cfgBothAbsent).2.1 (by decide) rfl
     (fun _ => true) [] 0 0 0 (fun _ => false) (by decide)⟩

/-- Claim C4 (counterexample): with both credentials unset but an
activation code present, add_user reports failure (the run aborts),
not the claimed success-as-no-op. -/
theorem add_user_both_absent_cex :
    cfgBothAbsent.username = none ∧ cfgBothAbsent.password = none ∧
    add_user_guard cfgBothAbsent = AddUserOutcome.failed ∧
    add_user_returns cfgBothAbsent = false ∧
    AddUserOutcome.failed ≠ AddUserOutcome.skipped := by
  decide

/-- Claim C4 (amended): with both username and password unset, add_user
spawns nothing; it reports success only when neither an activation code
nor a linking key is present, and reports failure when either is. -/
theorem add_user_both_absent (cfg : Config) (hu : cfg.username = none)
    (hp : cfg.password = none) :
    add_user_guard cfg =
      (if truthy cfg.activation_code || truthy cfg.linking_key then
        AddUserOutcome.failed
      else
        AddUserOutcome.skipped) := by
  cases h : (truthy cfg.activation_code || truthy cfg.linking_key) <;>
    simp [add_user_guard, hu, hp, h]

theorem add_user_both_absent_witness :
    add_user_guard cfgPlain = AddUserOutcome.skipped :=
  (add_user_both_absent cfgPlain rfl rfl).trans (by decide)

/-- Claim C5 (counterexample): a run in which a settings command fails
(exit code 1, so nessus_config reports failure) still ends with process
exit code 0: cli_configure returns True unconditionally, so a
settings-apply failure is never fatal. -/
theorem settings_failure_exit_zero_cex :
    nessus_config_result 1 = false ∧
    cli_configure [1] 1 = true ∧
    main_run cfgPlain (fun _ => true) [1] 1 0 0 (fun _ => false)
      = ExitResult.code 0 := by
  decide

/-- Claim C5 (amended): the exit code is 0 on success or when deferring
to the wizard, and 3 for readiness timeout, dialogue (add_user) failure,
and managed-link failure when retry is disabled; settings-apply failures
never produce exit 3 because the settings step unconditionally reports
success. -/
theorem exit_code_table (cfg : Config) (present : Nat → Bool)
    (settingExits : List Nat)
    (restartExit registerExit startExit : Nat) (attempts : Nat → Bool) :
    ((wait_for_global_db present cfg.global_db_timeout).1 = false →
      main_run cfg present settingExits restartExit registerExit startExit
        attempts = ExitResult.code 3) ∧
    ((wait_for_global_db present cfg.global_db_timeout).1 = true →
      add_user_returns cfg = false →
      main_run cfg present settingExits restartExit registerExit startExit
        attempts = ExitResult.code 3) ∧
    ((wait_for_global_db present cfg.global_db_timeout).1 = true →
      add_user_returns cfg = true →
      truthy cfg.activation_code = false → truthy cfg.linking_key = false →
      main_run cfg present settingExits restartExit registerExit startExit
        attempts = ExitResult.code 0) ∧
    ((wait_for_global_db present cfg.global_db_timeout).1 = true →
      add_user_returns cfg = true →
      truthy cfg.activation_code = true →
      main_run cfg present settingExits restartExit registerExit startExit
        attempts = ExitResult.code 0) ∧
    ((wait_for_global_db present cfg.global_db_timeout).1 = true →
      add_user_returns cfg = true →
      truthy cfg.activation_code = false → truthy cfg.linking_key = true →
      retry_enabled cfg.retry_on_fail = false → attempts 0 = false →
      main_run cfg present settingExits restartExit registerExit startExit
        attempts = ExitResult.code 3) ∧
    ((wait_for_global_db present cfg.global_db_timeout).1 = true →
      add_user_returns cfg = true →
      truthy cfg.activation_code = false → truthy cfg.linking_key = true →
      attempts 0 = true →
      main_run cfg present settingExits restartExit registerExit startExit
        attempts = ExitResult.code 0) ∧
    cli_configure settingExits restartExit = true := by
  refine ⟨?_, ?_, ?_, ?_, ?_, ?_, rfl⟩
  · intro hw; simp [main_run, hw]
  · intro hw hu; simp [main_run, hw, hu]
  · intro hw hu hc hk; simp [main_run, hw, hu, hc, hk, cli_configure]
  · intro hw hu hc
    cases ha : activate registerExit startExit <;>
      simp [main_run, hw, hu, hc, cli_configure, ha]
  · intro hw hu hc hk hr h0
    simp [main_run, hw, hu, hc, hk, cli_configure,
      configure_managed_scanner, hr, h0]
  · intro hw hu hc hk h0
    simp [main_run, hw, hu, hc, hk, cli_configure,
      configure_managed_scanner, h0]

theorem exit_code_table_witness :
    main_run cfgLink (fun _ => true) [] 0 0 0 (fun _ => false)
      = ExitResult.code 3 :=
  (exit_code_table cfgLink (fun _ => true) [] 0 0 0
      (fun _ => false)).2.2.2.2.1
    (by decide) (by decide) (by decide) (by decide) (by decide) rfl

/-- Claim C6 (counterexample): a modern-path success with non-empty
output not containing "Failed" returns the raw output string, which is
neither the boolean True nor the boolean False. -/
theorem managed_link_nonbool_cex :
    managed_link_result false (LinkCall.output "ok")
      = PyValue.pyStr "ok" ∧
    PyValue.pyStr "ok" ≠ PyValue.pyBool true ∧
    PyValue.pyStr "ok" ≠ PyValue.pyBool false := by
  decide

/-- Claim C6 (amended): managed_link returns the boolean False on every
failed attempt (non-zero legacy exit, CalledProcessError, output
containing "Failed", or empty captured output); a legacy success
returns the boolean True, but a modern success with non-empty clean
output returns the raw output string, a truthy non-boolean. -/
theorem managed_link_truthiness :
    (∀ n : Nat, managed_link_result true (LinkCall.exitCode n)
        = PyValue.pyBool (n == 0)) ∧
    (managed_link_result false LinkCall.calledProcessError
        = PyValue.pyBool false) ∧
    (∀ s : String, containsFailed s = true →
        managed_link_result false (LinkCall.output s)
          = PyValue.pyBool false) ∧
    (∀ s : String, s ≠ "" → containsFailed s = false →
        managed_link_result false (LinkCall.output s) = PyValue.pyStr s ∧
        pyTruthy (PyValue.pyStr s) = true) ∧
    (managed_link_result false (LinkCall.output "")
        = PyValue.pyBool false) := by
  refine ⟨?_, rfl, ?_, ?_, rfl⟩
  · intro n
    cases h : (n == 0) <;> simp [managed_link_result, h]
  · intro s hf
    cases h : (s == "") with
    | true =>
        have : s = "" := by simpa using h
        rw [this] at hf
        simp [containsFailed, containsSeq, leadMatch] at hf
    | false => simp [managed_link_result, h, hf]
  · intro s hs hf
    have h : (s == "") = false := by simpa using hs
    constructor
    · simp [managed_link_result, h, hf]
    · simpa [pyTruthy] using hs

theorem managed_link_truthiness_witness :
    managed_link_result false (LinkCall.output "done")
      = PyValue.pyStr "done" ∧
    managed_link_result false (LinkCall.output "Failed to link")
      = PyValue.pyBool false :=
  ⟨(managed_link_truthiness.2.2.2.1 "done" (by decide) (by decide)).1,
   managed_link_truthiness.2.2.1 "Failed to link" (by decide)⟩

/-- Claim C9: when an activation code is present and activation fails
(register or service start exits non-zero), the program still exits 0:
the sys.exit(0) at line 343 is unconditional. -/
theorem activation_failure_exit_zero (cfg : Config) (present : Nat → Bool)
    (settingExits : List Nat)
    (restartExit registerExit startExit : Nat) (attempts : Nat → Bool)
    (hgdb : (wait_for_global_db present cfg.global_db_timeout).1 = true)
    (huser : add_user_returns cfg = true)
    (hcode : truthy cfg.activation_code = true)
    (hfail : registerExit ≠ 0 ∨ startExit ≠ 0) :
    activate registerExit startExit = false ∧
    main_run cfg present settingExits restartExit registerExit startExit
      attempts = ExitResult.code 0 := by
  constructor
  · rcases hfail with hr | hs
    · simp [activate, hr]
    · cases hre : (registerExit == 0) <;> simp [activate, hre, hs]
  · cases ha : activate registerExit startExit <;>
      simp [main_run, hgdb, huser, hcode, cli_configure, ha]

theorem activation_failure_exit_zero_witness :
    activate 1 0 = false ∧
    main_run cfgActivate (fun _ => true) [] 0 1 0 (fun _ => false)
      = ExitResult.code 0 :=
  activation_failure_exit_zero cfgActivate (fun _ => true) [] 0 1 0
    (fun _ => false) (by decide) (by decide) (by decide)
    (Or.inl (by decide))

end ConfigureScanner
